import Mathlib

/-!
Verification of the translation orchestrator and language registry of the
`language-translator` repository (src/translation_service.py, src/constants.py,
src/app.py), shallowly embedded in Lean 4.

The backend (`googletrans.Translator`) is an external dependency; it is modelled
as a capability record: an availability flag (`TRANSLATOR_AVAILABLE`, i.e. whether
`get_translator()` returns an object or `None`) together with a call function that
either succeeds with a `(text, src)` result or raises (modelled as `failure`).
-/

set_option maxRecDepth 10000

namespace Translator

/-- Outcome of one backend call `translator.translate(txt, src=src, dest=tgt)`:
either a result object carrying `.text` and `.src`, or a raised exception. -/
inductive BackendResponse where
  | success (text : String) (src : String)
  | failure
deriving DecidableEq, Repr

/-- The injected translation-backend capability: `available` models whether the
`googletrans` import succeeded (so `get_translator()` returns a translator rather
than `None`), and `call` models the behaviour of `translator.translate`. -/
structure Backend where
  available : Bool
  call : String → String → String → BackendResponse

/-- The caller-facing result of `translate_text`: the code returns a pair of
strings in every branch, but each branch is either a genuine translation result
or one of the three fixed error messages; the spec's `TranslationResult` names
the two shapes. -/
inductive TranslationResult where
  | Translated (text : String) (detectedSource : String)
  | Failed (userMessage : String) (fallbackSource : String)
deriving DecidableEq, Repr

/-- The exact string returned by `translate_text` when `get_translator()` is
`None` (src/translation_service.py line 59). -/
def libUnavailableMessage : String :=
  "Error: Translation library (googletrans) is not installed on the server."

/-- The exact no-op-heuristic message (src/translation_service.py lines 74-77);
the two Python string literals concatenate with the trailing space. -/
def noOpMessage : String :=
  "Translation failed. The service returned the original text. This may be due to a temporary network issue or an unsupported language."

/-- The exact message produced in the `except` handler
(src/translation_service.py lines 85-88). -/
def connectionErrorMessage : String :=
  "Translation error: Could not connect to the service. Please check your internet connection or try again later."

/-- Python `str.strip()`: remove leading and trailing whitespace. -/
def pyStrip (s : String) : String :=
  ⟨((s.data.dropWhile Char.isWhitespace).reverse.dropWhile Char.isWhitespace).reverse⟩

/-- Python `str.lower()` (language codes are ASCII, where the two agree). -/
def pyLower (s : String) : String :=
  ⟨s.data.map Char.toLower⟩

/-- Embedding of `translate_text(txt, src, tgt)` (src/translation_service.py
lines 45-90), with the backend capability passed explicitly.  Python truthiness
of a string (`if not txt.strip()`, `if detected_src`) is emptiness of the
stripped/raw string. -/
def translate_text (b : Backend) (txt src tgt : String) : TranslationResult :=
  if b.available = false then
    .Failed libUnavailableMessage src
  else if pyStrip txt = "" then
    .Translated "" "en"
  else
    match b.call txt src tgt with
    | .success translated_text detected_src =>
        if detected_src ≠ "" ∧ pyLower detected_src ≠ pyLower tgt ∧
            pyStrip translated_text = pyStrip txt then
          .Failed noOpMessage detected_src
        else
          .Translated translated_text detected_src
    | .failure =>
        .Failed connectionErrorMessage (if src ≠ "auto" then src else "en")

/-- The same control flow as `translate_text`, additionally recording the list of
`(txt, src, tgt)` argument triples passed to `translator.translate`; used to state
"the backend is never invoked" / "invoked exactly once with verbatim arguments". -/
def translate_text_traced (b : Backend) (txt src tgt : String) :
    TranslationResult × List (String × String × String) :=
  if b.available = false then
    (.Failed libUnavailableMessage src, [])
  else if pyStrip txt = "" then
    (.Translated "" "en", [])
  else
    match b.call txt src tgt with
    | .success translated_text detected_src =>
        (if detected_src ≠ "" ∧ pyLower detected_src ≠ pyLower tgt ∧
            pyStrip translated_text = pyStrip txt then
          .Failed noOpMessage detected_src
        else
          .Translated translated_text detected_src, [(txt, src, tgt)])
    | .failure =>
        (.Failed connectionErrorMessage (if src ≠ "auto" then src else "en"),
          [(txt, src, tgt)])

/-- `asyncio.to_thread(f, a, b, c)` awaits `f(a, b, c)` on a worker thread and
resolves to its return value; with the execution context erased it is plain
application. -/
def to_thread {α β γ δ : Type} (f : α → β → γ → δ) (a : α) (b : β) (c : γ) : δ :=
  f a b c

/-- Embedding of `translate_text_async` (src/translation_service.py lines
92-102): `return await asyncio.to_thread(translate_text, txt, src, tgt)`. -/
def translate_text_async (b : Backend) (txt src tgt : String) : TranslationResult :=
  to_thread (translate_text b) txt src tgt

/-- The `LANGUAGES` list of `(display name, ISO code)` pairs
(src/constants.py lines 8-30), in source order. -/
def LANGUAGES : List (String × String) := [
  ("English (US)", "en"), ("English (UK)", "en"), ("Turkish", "tr"), ("French", "fr"),
  ("German", "de"), ("Spanish", "es"), ("Portuguese", "pt"), ("Italian", "it"),
  ("Japanese", "ja"), ("Korean", "ko"), ("Chinese (Simplified)", "zh-cn"),
  ("Chinese (Traditional)", "zh-tw"), ("Arabic", "ar"), ("Russian", "ru"),
  ("Dutch", "nl"), ("Polish", "pl"), ("Greek", "el"), ("Hebrew", "he"),
  ("Hindi", "hi"), ("Thai", "th"), ("Vietnamese", "vi"), ("Indonesian", "id"),
  ("Malay", "ms"), ("Filipino", "tl"), ("Swedish", "sv"), ("Norwegian", "no"),
  ("Danish", "da"), ("Finnish", "fi"), ("Czech", "cs"), ("Slovak", "sk"),
  ("Hungarian", "hu"), ("Romanian", "ro"), ("Bulgarian", "bg"), ("Croatian", "hr"),
  ("Serbian", "sr"), ("Ukrainian", "uk"), ("Lithuanian", "lt"), ("Latvian", "lv"),
  ("Estonian", "et"), ("Slovenian", "sl"), ("Catalan", "ca"), ("Basque", "eu"),
  ("Galician", "gl"), ("Welsh", "cy"), ("Irish", "ga"), ("Icelandic", "is"),
  ("Maltese", "mt"), ("Esperanto", "eo"), ("Latin", "la"), ("Persian", "fa"),
  ("Urdu", "ur"), ("Bengali", "bn"), ("Tamil", "ta"), ("Telugu", "te"),
  ("Gujarati", "gu"), ("Punjabi", "pa"), ("Marathi", "mr"), ("Kannada", "kn"),
  ("Malayalam", "ml"), ("Sinhalese", "si"), ("Nepali", "ne"), ("Burmese", "my"),
  ("Khmer", "km"), ("Lao", "lo"), ("Georgian", "ka"), ("Armenian", "hy"),
  ("Azerbaijani", "az"), ("Kazakh", "kk"), ("Kyrgyz", "ky"), ("Uzbek", "uz"),
  ("Tajik", "tg"), ("Mongolian", "mn"), ("Tibetan", "bo"), ("Swahili", "sw"),
  ("Amharic", "am"), ("Somali", "so"), ("Zulu", "zu"), ("Xhosa", "xh"),
  ("Afrikaans", "af"), ("Hausa", "ha"), ("Yoruba", "yo"), ("Igbo", "ig")]

/-- Inserting one key/value pair into a Python `dict` modelled as an assoc list:
an existing key keeps its position and gets the new value (Python dicts update
in place), a new key is appended (insertion order is preserved). -/
def dictInsert (d : List (String × String)) (k v : String) : List (String × String) :=
  if d.any (fun p => p.1 = k) then
    d.map (fun p => if p.1 = k then (k, v) else p)
  else
    d ++ [(k, v)]

/-- A Python dict comprehension `{k: v for (k, v) in ps}` as an ordered assoc
list: successive insertion of each pair. -/
def dictOfPairs (ps : List (String × String)) : List (String × String) :=
  ps.foldl (fun d p => dictInsert d p.1 p.2) []

/-- `dict.get(k, dflt)`. -/
def dictGet (d : List (String × String)) (k dflt : String) : String :=
  match d.find? (fun p => p.1 = k) with
  | some p => p.2
  | none => dflt

/-- `dict[k]` as an optional lookup (`None` when the key is absent). -/
def dictFind (d : List (String × String)) (k : String) : Option String :=
  match d.find? (fun p => p.1 = k) with
  | some p => some p.2
  | none => none

/-- `LANG_BY_NAME = {n: c for n, c in LANGUAGES}` (src/constants.py line 34). -/
def LANG_BY_NAME : List (String × String) :=
  dictOfPairs LANGUAGES

/-- `LANG_BY_CODE = {c: n for n, c in LANGUAGES}` (src/constants.py line 38). -/
def LANG_BY_CODE : List (String × String) :=
  dictOfPairs (LANGUAGES.map (fun p => (p.2, p.1)))

/-- The `LANG_TTS_MAP` dict of ISO code → BCP-47 locale
(src/constants.py lines 47-124), in source order (all keys are distinct). -/
def LANG_TTS_MAP : List (String × String) := [
  ("en", "en-US"), ("tr", "tr-TR"), ("fr", "fr-FR"), ("de", "de-DE"),
  ("es", "es-ES"), ("pt", "pt-BR"), ("it", "it-IT"), ("ja", "ja-JP"),
  ("ko", "ko-KR"), ("zh-cn", "zh-CN"), ("zh-tw", "zh-TW"), ("ar", "ar-SA"),
  ("ru", "ru-RU"), ("nl", "nl-NL"), ("pl", "pl-PL"), ("el", "el-GR"),
  ("he", "he-IL"), ("hi", "hi-IN"), ("th", "th-TH"), ("vi", "vi-VN"),
  ("id", "id-ID"), ("ms", "ms-MY"), ("tl", "tl-PH"), ("sv", "sv-SE"),
  ("no", "no-NO"), ("da", "da-DK"), ("fi", "fi-FI"), ("cs", "cs-CZ"),
  ("sk", "sk-SK"), ("hu", "hu-HU"), ("ro", "ro-RO"), ("bg", "bg-BG"),
  ("hr", "hr-HR"), ("sr", "sr-RS"), ("uk", "uk-UA"), ("lt", "lt-LT"),
  ("lv", "lv-LV"), ("et", "et-EE"), ("sl", "sl-SI"), ("ca", "ca-ES"),
  ("cy", "cy-GB"), ("ga", "ga-IE"), ("is", "is-IS"), ("mt", "mt-MT"),
  ("fa", "fa-IR"), ("ur", "ur-PK"), ("bn", "bn-IN"), ("ta", "ta-IN"),
  ("te", "te-IN"), ("gu", "gu-IN"), ("pa", "pa-IN"), ("mr", "mr-IN"),
  ("kn", "kn-IN"), ("ml", "ml-IN"), ("si", "si-LK"), ("ne", "ne-NP"),
  ("my", "my-MM"), ("km", "km-KH"), ("lo", "lo-LA"), ("ka", "ka-GE"),
  ("hy", "hy-AM"), ("az", "az-AZ"), ("kk", "kk-KZ"), ("ky", "ky-KG"),
  ("uz", "uz-UZ"), ("tg", "tg-TJ"), ("mn", "mn-MN"), ("sw", "sw-KE"),
  ("am", "am-ET"), ("so", "so-SO"), ("zu", "zu-ZA"), ("xh", "xh-ZA"),
  ("af", "af-ZA"), ("ha", "ha-NG"), ("yo", "yo-NG"), ("ig", "ig-NG")]

/-- `get_tts_language(lang_code) = LANG_TTS_MAP.get(lang_code, lang_code)`
(src/translation_service.py lines 35-43, identically src/app.py lines 127-135). -/
def get_tts_language (lang_code : String) : String :=
  dictGet LANG_TTS_MAP lang_code lang_code

/-- One dropdown option dict `{"label": name, "value": code}`. -/
structure LanguageOption where
  label : String
  value : String
deriving DecidableEq, Repr

/-- `get_language_options()` (src/app.py lines 119-125): one option per entry of
`LANG_BY_NAME.items()`, in dict iteration (= insertion) order. -/
def get_language_options : List LanguageOption :=
  LANG_BY_NAME.map (fun p => { label := p.1, value := p.2 })

/-- A backend whose `googletrans` import failed: `get_translator()` is `None`. -/
def unavailableBackend : Backend :=
  { available := false, call := fun _ _ _ => .failure }

/-- An available fake backend that echoes the input text back with detected
source "en" (the silent no-op scenario). -/
def echoBackend : Backend :=
  { available := true, call := fun txt _ _ => .success txt "en" }

/-- An available fake backend that raises on every call. -/
def throwingBackend : Backend :=
  { available := true, call := fun _ _ _ => .failure }

/-- An available fake backend that returns a genuinely translated text. -/
def translatingBackend : Backend :=
  { available := true, call := fun _ _ _ => .success "merhaba" "en" }

/-- The traced orchestrator computes the same result as `translate_text`. -/
theorem translate_text_traced_fst (b : Backend) (txt src tgt : String) :
    (translate_text_traced b txt src tgt).1 = translate_text b txt src tgt := by
  unfold translate_text_traced translate_text
  by_cases hav : b.available = false
  · simp [hav]
  · by_cases hempty : pyStrip txt = ""
    · simp [hav, hempty]
    · simp only [hav, hempty, if_false]
      cases b.call txt src tgt <;> simp

/-- C1: with an available backend and non-empty trimmed text, a successful
backend call `(t, ds)` yields the fixed no-op failure message paired with `ds`
exactly when `ds` is non-empty, `ds` differs case-insensitively from `tgt`, and
the trimmed `t` equals the trimmed input; in every other case the backend values
are returned verbatim as `Translated t ds`. -/
theorem noop_heuristic_characterisation (b : Backend) (txt src tgt t ds : String)
    (hav : b.available = true) (hne : pyStrip txt ≠ "")
    (hcall : b.call txt src tgt = .success t ds) :
    (translate_text b txt src tgt = .Failed noOpMessage ds ↔
      ds ≠ "" ∧ pyLower ds ≠ pyLower tgt ∧ pyStrip t = pyStrip txt) ∧
    (¬(ds ≠ "" ∧ pyLower ds ≠ pyLower tgt ∧ pyStrip t = pyStrip txt) →
      translate_text b txt src tgt = .Translated t ds) := by
  unfold translate_text
  simp only [hav, Bool.true_eq_false, if_false, if_neg hne, hcall]
  by_cases hc : ds ≠ "" ∧ pyLower ds ≠ pyLower tgt ∧ pyStrip t = pyStrip txt
  · rw [if_pos hc]
    exact ⟨iff_of_true rfl hc, fun h => absurd hc h⟩
  · rw [if_neg hc]
    exact ⟨iff_of_false (fun h => TranslationResult.noConfusion h) hc, fun _ => rfl⟩

/-- C1 witness: `echoBackend` on ("hello", "auto", "tr") detects "en" and
returns the input unchanged, so the no-op failure is produced. -/
theorem noop_heuristic_characterisation_witness :
    translate_text echoBackend "hello" "auto" "tr" = .Failed noOpMessage "en" :=
  ((noop_heuristic_characterisation echoBackend "hello" "auto" "tr" "hello" "en"
    rfl (by decide) rfl).1).mpr (by decide)

/-- C2 counterexample: the claimed exact message "Translation library is not
installed on the server." is not what the code returns — at a concrete input the
actual message carries an "Error: " prefix and names googletrans. -/
theorem unavailable_claimed_message_cex :
    translate_text unavailableBackend "hello" "en" "tr" ≠
      .Failed "Translation library is not installed on the server." "en" := by
  decide

/-- C2 amended: when the backend capability is unavailable, every call returns
the failure with exactly the message "Error: Translation library (googletrans)
is not installed on the server." paired with `src`, and the backend is never
invoked. -/
theorem unavailable_returns_fixed_failure (b : Backend) (txt src tgt : String)
    (h : b.available = false) :
    translate_text b txt src tgt = .Failed libUnavailableMessage src ∧
    (translate_text_traced b txt src tgt).2 = [] := by
  unfold translate_text translate_text_traced
  simp [h]

/-- C2 witness: the amended statement at a concrete input. -/
theorem unavailable_returns_fixed_failure_witness :
    translate_text unavailableBackend "hello" "en" "tr" =
      .Failed libUnavailableMessage "en" ∧
    (translate_text_traced unavailableBackend "hello" "en" "tr").2 = [] :=
  unavailable_returns_fixed_failure unavailableBackend "hello" "en" "tr" rfl

/-- C3: with an available backend, text that trims to empty short-circuits to
`Translated "" "en"` and the backend call list stays empty (a call-counting
backend stays at 0 calls). -/
theorem empty_input_short_circuit (b : Backend) (txt src tgt : String)
    (hav : b.available = true) (hempty : pyStrip txt = "") :
    translate_text b txt src tgt = .Translated "" "en" ∧
    (translate_text_traced b txt src tgt).2 = [] := by
  unfold translate_text translate_text_traced
  simp [hav, hempty]

/-- C3 witness: whitespace-only text against an available backend. -/
theorem empty_input_short_circuit_witness :
    translate_text echoBackend "  \n\t " "auto" "tr" = .Translated "" "en" ∧
    (translate_text_traced echoBackend "  \n\t " "auto" "tr").2 = [] :=
  empty_input_short_circuit echoBackend "  \n\t " "auto" "tr" rfl (by decide)

/-- C4: with an available backend and non-empty trimmed text, a raising backend
call yields the fixed connection-error message paired with `src` when `src` is
not "auto" and with "en" when `src` is "auto". -/
theorem backend_error_connection_failure (b : Backend) (txt src tgt : String)
    (hav : b.available = true) (hne : pyStrip txt ≠ "")
    (hcall : b.call txt src tgt = .failure) :
    translate_text b txt src tgt =
      .Failed connectionErrorMessage (if src ≠ "auto" then src else "en") := by
  unfold translate_text
  simp [hav, hcall, hne]

/-- C4 witness: a backend that throws on every call, with sourceSpec "auto",
falls back to "en". -/
theorem backend_error_connection_failure_witness :
    translate_text throwingBackend "hello" "auto" "tr" =
      .Failed connectionErrorMessage "en" := by
  have h := backend_error_connection_failure throwingBackend "hello" "auto" "tr"
    rfl (by decide) rfl
  simpa using h

/-- C5: with an available backend and non-empty trimmed text, the orchestrator
invokes the backend exactly once, with exactly the caller-supplied arguments,
whatever the response — no validation, normalization or rewriting of the codes,
even unregistered ones. -/
theorem backend_invoked_once_verbatim (b : Backend) (txt src tgt : String)
    (hav : b.available = true) (hne : pyStrip txt ≠ "") :
    (translate_text_traced b txt src tgt).2 = [(txt, src, tgt)] := by
  unfold translate_text_traced
  simp only [hav, Bool.true_eq_false, if_false, if_neg hne]
  cases b.call txt src tgt <;> simp

/-- C5 witness: codes absent from the Language Registry are passed through
verbatim. -/
theorem backend_invoked_once_verbatim_witness :
    (translate_text_traced echoBackend "hello" "xx-fake" "qq").2 =
      [("hello", "xx-fake", "qq")] :=
  backend_invoked_once_verbatim echoBackend "hello" "xx-fake" "qq" rfl (by decide)

/-- C6: the asynchronous variant returns exactly the result of the synchronous
`translate_text` on the same input — `asyncio.to_thread` only changes the
execution context. -/
theorem async_equals_sync (b : Backend) (txt src tgt : String) :
    translate_text_async b txt src tgt = translate_text b txt src tgt := rfl

/-- C7: `get_tts_language` maps "tr" to "tr-TR", returns the unknown code "zz"
unchanged, maps every code present in `LANG_TTS_MAP` to its locale string, and
returns every absent code unchanged (it is total, so it never fails). -/
theorem tts_locale_lookup :
    get_tts_language "tr" = "tr-TR" ∧ get_tts_language "zz" = "zz" ∧
    (∀ code locale : String,
      dictFind LANG_TTS_MAP code = some locale → get_tts_language code = locale) ∧
    (∀ code : String,
      dictFind LANG_TTS_MAP code = none → get_tts_language code = code) := by
  refine ⟨by decide, by decide, ?_, ?_⟩
  · intro code locale h
    unfold get_tts_language dictGet
    unfold dictFind at h
    cases hf : List.find? (fun p => p.1 = code) LANG_TTS_MAP with
    | none => simp only [hf] at h; exact Option.noConfusion h
    | some p =>
        simp only [hf, Option.some.injEq] at h
        simp only [hf]
        exact h
  · intro code h
    unfold get_tts_language dictGet
    unfold dictFind at h
    cases hf : List.find? (fun p => p.1 = code) LANG_TTS_MAP with
    | none => simp only [hf]
    | some p => simp only [hf] at h; exact Option.noConfusion h

/-- C7 witness: a mapped code and an unmapped code, through the general parts. -/
theorem tts_locale_lookup_witness :
    get_tts_language "en" = "en-US" ∧ get_tts_language "qq" = "qq" :=
  ⟨tts_locale_lookup.2.2.1 "en" "en-US" (by decide),
   tts_locale_lookup.2.2.2 "qq" (by decide)⟩

/-- C8: `get_language_options` is the registry list in its fixed definition
order (all 81 display names are distinct, so the name-keyed dict preserves every
entry in insertion order); as a pure value it is identical on every call. -/
theorem language_options_registry_order :
    get_language_options =
      LANGUAGES.map (fun p => { label := p.1, value := p.2 }) := by
  decide

/-- C9: the reverse code→name dict collapses the duplicate code "en" by
last-write-wins, so "en" maps to "English (UK)", and every other registry code
maps to its unique display name. -/
theorem code_lookup_last_write_wins :
    dictFind LANG_BY_CODE "en" = some "English (UK)" ∧
    ∀ p ∈ LANGUAGES, p.2 ≠ "en" → dictFind LANG_BY_CODE p.2 = some p.1 :=
  ⟨by decide, by decide⟩

/-- C9 witness: the general part at the registry entry ("Turkish", "tr"). -/
theorem code_lookup_last_write_wins_witness :
    dictFind LANG_BY_CODE "tr" = some "Turkish" :=
  code_lookup_last_write_wins.2 ("Turkish", "tr") (by decide) (by decide)

/-- C10: the availability check precedes the empty-input short-circuit — with an
unavailable backend even empty or whitespace-only text yields the
unavailable-library failure paired with `src`, never `Translated "" "en"`. -/
theorem unavailable_overrides_empty (b : Backend) (txt src tgt : String)
    (h : b.available = false) (hempty : pyStrip txt = "") :
    translate_text b txt src tgt = .Failed libUnavailableMessage src ∧
    translate_text b txt src tgt ≠ .Translated "" "en" := by
  unfold translate_text
  simp [h]

/-- C10 witness: whitespace-only text against the unavailable backend. -/
theorem unavailable_overrides_empty_witness :
    translate_text unavailableBackend "  " "auto" "tr" =
      .Failed libUnavailableMessage "auto" ∧
    translate_text unavailableBackend "  " "auto" "tr" ≠ .Translated "" "en" :=
  unavailable_overrides_empty unavailableBackend "  " "auto" "tr" rfl (by decide)

end Translator
